import Mathlib

/-!
Shallow embedding of the `graphql_requests` package
(`src/graphql_requests/graphql_requests.py`).

The package wraps a `requests.Session`: `GraphQLSession.query` validates the
`variables` / `file_map` / `files` arguments and then issues either a JSON
POST or a multipart POST to the URI bound at construction time, and
`GraphQLSession.__getattr__` delegates attribute access to the underlying
session, injecting the bound URI for the HTTP verb methods.

Python values that flow through the code (dictionary values, tuples, file
entries, JSON payloads) are modelled by the inductive type `PyVal`; optional
dictionary arguments are `Option PyDict`, where `Option.none` stands for an
argument that was not supplied (Python `None`).  Raising a `ValueError`
is modelled by the `Except` monad: `query` returns either an error or the
single outbound request it would send.
-/

namespace GraphQLRequests

/-- Model of the Python values relevant to the library: `None`, booleans,
integers, strings, lists, tuples and string-keyed dictionaries.  Dictionaries
are association lists, preserving insertion order as Python dictionaries do. -/
inductive PyVal where
  | none
  | bool (b : Bool)
  | int (n : Int)
  | str (s : String)
  | list (xs : List PyVal)
  | tuple (xs : List PyVal)
  | dict (entries : List (String × PyVal))

/-- A Python dictionary with string keys, in insertion order. -/
abbrev PyDict := List (String × PyVal)

/-- Truthiness of an optional dictionary argument, as used by the bare
`if file_map:` / `if not variables` tests in `query`: `None` and the empty
dictionary are falsy, a non-empty dictionary is truthy. -/
def truthy : Option PyDict → Bool
  | Option.none => false
  | some d => !d.isEmpty

/-- `d.keys()` of a dictionary, in insertion order. -/
def dictKeys (d : PyDict) : List String := d.map Prod.fst

/-- `d.values()` of a dictionary, in insertion order. -/
def dictValues (d : PyDict) : List PyVal := d.map Prod.snd

/-- `set(a) == set(b)` on key lists: equality as sets, i.e. mutual
containment. -/
def sameKeySet (a b : List String) : Bool :=
  a.all (fun k => b.contains k) && b.all (fun k => a.contains k)

/-- Python `len` on a `PyVal`: strings, lists, tuples and dictionaries are
sized; `len` on any other value raises `TypeError`, modelled as `Option.none`. -/
def pyLen : PyVal → Option Nat
  | .str s => some s.length
  | .list xs => some xs.length
  | .tuple xs => some xs.length
  | .dict es => some es.length
  | _ => Option.none

/-- Lower-case hexadecimal digit for `n % 16`. -/
def hexDigitChar (n : Nat) : Char :=
  if n % 16 < 10 then Char.ofNat (48 + n % 16) else Char.ofNat (87 + n % 16)

/-- Four hexadecimal digits of `n`, as in a JSON `\uXXXX` escape. -/
def hex4 (n : Nat) : String :=
  String.mk [hexDigitChar (n / 4096), hexDigitChar (n / 256),
             hexDigitChar (n / 16), hexDigitChar n]

/-- JSON escaping of one character, following `json.dumps` defaults
(`ensure_ascii=True`): quote, backslash and the common control characters get
two-character escapes, all other control or non-ASCII characters a `\uXXXX`
escape, and the rest stand for themselves. -/
def escapeChar (c : Char) : String :=
  if c = '"' then "\\\""
  else if c = '\\' then "\\\\"
  else if c = '\n' then "\\n"
  else if c = '\t' then "\\t"
  else if c = '\r' then "\\r"
  else if c.toNat = 8 then "\\b"
  else if c.toNat = 12 then "\\f"
  else if c.toNat < 32 || c.toNat > 126 then "\\u" ++ hex4 c.toNat
  else String.singleton c

/-- A JSON string literal for `s`: quotes around the escaped characters. -/
def quoteJson (s : String) : String :=
  "\"" ++ String.join (s.data.map escapeChar) ++ "\""

mutual

/-- Model of `json.dumps` with its default separators (`", "` between items,
`": "` after a key): the serialization the source applies to the `operations`
dictionary and to `file_map` when building the multipart form data. -/
def dumps : PyVal → String
  | .none => "null"
  | .bool b => if b then "true" else "false"
  | .int n => toString n
  | .str s => quoteJson s
  | .list xs => "[" ++ dumpsItems xs ++ "]"
  | .tuple xs => "[" ++ dumpsItems xs ++ "]"
  | .dict es => "\x7b" ++ dumpsEntries es ++ "\x7d"

/-- Comma-separated serializations of the items of a JSON array. -/
def dumpsItems : List PyVal → String
  | [] => ""
  | [v] => dumps v
  | v :: rest => dumps v ++ ", " ++ dumpsItems rest

/-- Comma-separated `"key": value` serializations of a JSON object's entries. -/
def dumpsEntries : List (String × PyVal) → String
  | [] => ""
  | [(k, v)] => quoteJson k ++ ": " ++ dumps v
  | (k, v) :: rest => quoteJson k ++ ": " ++ dumps v ++ ", " ++ dumpsEntries rest

end

/-- The `PyVal` a dictionary-or-`None` argument stands for when used as a
value (as `variables` and `file_map` are inside the multipart branch). -/
def pyOfOptDict : Option PyDict → PyVal
  | Option.none => PyVal.none
  | some d => PyVal.dict d

/-- The errors `query` can raise.  The three `ValueError`s of the source are
distinguished by their construction site, carrying the exact message; `len`
on an unsized value would raise a `TypeError`. -/
inductive QueryError where
  | invalidArguments (msg : String)
  | inconsistentFileMap (msg : String)
  | malformedFileEntry (msg : String)
  | typeError

/-- An outbound HTTP request issued through the underlying session: either
`session.post(uri, json=payload)` or
`session.post(uri, data=data, files=file_data)`. -/
inductive Request where
  | jsonPost (uri : String) (payload : PyDict)
  | multipartPost (uri : String) (data : List (String × String)) (fileParts : PyDict)

/-- Message raised when `file_map` is supplied without `variables` or `files`. -/
def fileMapArgsMsg : String :=
  "The file_map argument requires the variables and files arguments"

/-- Message raised when `files` is supplied without `variables` or `file_map`. -/
def filesArgsMsg : String :=
  "The files argument requires the variables and file_map arguments"

/-- Message raised when the key sets of `file_map` and `files` differ. -/
def sameKeysMsg : String :=
  "The file map and the files dictionary must have the same keys"

/-- Message raised when a value of `files` does not have length 3 (the source
concatenates three adjacent string literals). -/
def threeTupleMsg : String :=
  "The values of the files directory must be " ++
  "3-tuples with the filename, the file object and " ++
  "the content type"

/-- The `for value in files.values()` loop of `query`: the first value whose
`len` differs from 3 raises the `MalformedFileEntry` message; a value with no
`len` raises `TypeError`; otherwise the loop finishes silently. -/
def checkFileValues : List PyVal → Option QueryError
  | [] => Option.none
  | v :: rest =>
    match pyLen v with
    | Option.none => some QueryError.typeError
    | some n => if n ≠ 3 then some (QueryError.malformedFileEntry threeTupleMsg)
                else checkFileValues rest

/-- `GraphQLSession.query(query_string, variables, file_map, files)` for a
session bound to `uri`.  The sequential `if ...: raise` sanity checks of the
source become an `if`-chain (each guarded block only raises), followed by the
file-value loop and the branch between the JSON payload and the multipart
form.  The returned `Request` is the single `self._session.post(...)` call
the source performs. -/
def query (uri query_string : String)
    (vars file_map files : Option PyDict) : Except QueryError Request :=
  -- sanity check: have all required arguments been supplied?
  if truthy file_map && (!truthy vars || !truthy files) then
    Except.error (QueryError.invalidArguments fileMapArgsMsg)
  else if truthy files && (!truthy vars || !truthy file_map) then
    Except.error (QueryError.invalidArguments filesArgsMsg)
  -- sanity check: are the files and the file map consistent?
  else if truthy file_map && truthy files &&
      !sameKeySet (dictKeys (file_map.getD [])) (dictKeys (files.getD [])) then
    Except.error (QueryError.inconsistentFileMap sameKeysMsg)
  else
    -- sanity check: are the file values complete?
    match (if truthy files then checkFileValues (dictValues (files.getD []))
           else Option.none) with
    | some e => Except.error e
    | Option.none =>
      -- query without file upload: payload = {'query': ...} plus, when
      -- variables is truthy, payload['variables'] = variables
      if !truthy files then
        Except.ok (Request.jsonPost uri
          ([("query", PyVal.str query_string)] ++
           (if truthy vars then [("variables", PyVal.dict (vars.getD []))]
            else [])))
      else
        -- query with file upload: operations and map are JSON-dumped into the
        -- form data; file_data is a key-by-key copy of files
        Except.ok (Request.multipartPost uri
          [("operations", dumps (PyVal.dict
              [("query", PyVal.str query_string),
               ("variables", pyOfOptDict vars)])),
           ("map", dumps (pyOfOptDict file_map))]
          (files.getD []))

/-- The requests a call to `query` sends over the network: the single POST on
success, none when a validation error is raised before the send. -/
def requestsSent (uri query_string : String)
    (vars file_map files : Option PyDict) : List Request :=
  match query uri query_string vars file_map files with
  | Except.ok r => [r]
  | Except.error _ => []

/-- The underlying `requests.Session` object, abstracted as its attribute
table: `hasattr` succeeds exactly on the listed names and `getattr` returns
the associated value. -/
structure HttpClient where
  attrs : List (String × PyVal)

/-- `hasattr(client, item)`. -/
def HttpClient.hasattr (c : HttpClient) (item : String) : Bool :=
  (c.attrs.lookup item).isSome

/-- `getattr(client, item)` (defaulting to `None`; only used under
`hasattr`). -/
def HttpClient.attrVal (c : HttpClient) (item : String) : PyVal :=
  (c.attrs.lookup item).getD PyVal.none

/-- One invocation `client.<method>(url, *args, **kwargs)` of the underlying
session. -/
structure ClientCall where
  method : String
  url : String
  args : List PyVal
  kwargs : List (String × PyVal)

/-- Result of `GraphQLSession.__getattr__`: an `AttributeError`, the wrapper
closure returned for an HTTP verb (as the function from the extra positional
and keyword arguments to the client call it performs), or the client's
attribute passed through unchanged. -/
inductive GetattrResult where
  | err (msg : String)
  | verbCallable (f : List PyVal → List (String × PyVal) → ClientCall)
  | attr (v : PyVal)

/-- `GraphQLSession._HTTP_VERBS`. -/
def HTTP_VERBS : List String :=
  ["get", "post", "put", "patch", "delete", "options", "head"]

/-- `GraphQLSession.__getattr__(item)` for a session bound to `uri` over
client `c`: unknown names raise `AttributeError`, HTTP verbs return a closure
that calls the client's method with the bound URI prepended, and every other
name is delegated to the client unchanged. -/
def getattr (uri : String) (c : HttpClient) (item : String) : GetattrResult :=
  if !c.hasattr item then
    GetattrResult.err ("The Session class has no attribute \x27" ++ item ++ "\x27")
  else if HTTP_VERBS.contains item then
    GetattrResult.verbCallable (fun args kwargs => ⟨item, uri, args, kwargs⟩)
  else
    GetattrResult.attr (c.attrVal item)

/-- Substring test used to state the "message mentions ..." requirements:
`pat` occurs contiguously in `s`. -/
def strContains (s pat : String) : Bool :=
  (List.range (s.data.length + 1)).any
    (fun i => List.isPrefixOf pat.data (s.data.drop i))

/-! ## Helper lemmas -/

/-- A non-empty dictionary is truthy. -/
theorem truthy_some_of_ne_nil (d : PyDict) (h : d ≠ []) : truthy (some d) = true := by
  cases d with
  | nil => exact absurd rfl h
  | cons a l => rfl

/-- A string that occurs between two others is found by `strContains`. -/
theorem strContains_of_append (a p b : String) : strContains (a ++ p ++ b) p = true := by
  have hdata : (a ++ p ++ b).data = a.data ++ (p.data ++ b.data) := by
    rw [String.data_append, String.data_append, List.append_assoc]
  rw [strContains, List.any_eq_true]
  refine ⟨a.data.length, ?_, ?_⟩
  · rw [List.mem_range, hdata]
    simp only [List.length_append]
    omega
  · rw [hdata, List.drop_left, List.isPrefixOf_iff_prefix]
    exact List.prefix_append p.data b.data

/-- The file-value loop never raises the key-consistency error. -/
theorem checkFileValues_ne_inconsistent (vs : List PyVal) (m : String) :
    checkFileValues vs ≠ some (QueryError.inconsistentFileMap m) := by
  induction vs with
  | nil => simp [checkFileValues]
  | cons v rest ih =>
    simp only [checkFileValues]
    cases hl : pyLen v with
    | none => simp
    | some n =>
      by_cases h3 : n = 3
      · simpa [h3] using ih
      · simp [h3]

/-- When every file value has length 3 the loop finishes silently. -/
theorem checkFileValues_none_of_all3 (vs : List PyVal)
    (h : ∀ v ∈ vs, pyLen v = some 3) : checkFileValues vs = Option.none := by
  induction vs with
  | nil => rfl
  | cons v rest ih =>
    have hv := h v (by simp)
    simp only [checkFileValues, hv]
    simpa using ih (fun w hw => h w (by simp [hw]))

/-- When every file value is sized and some has length other than 3, the loop
raises the `MalformedFileEntry` message. -/
theorem checkFileValues_some_of_bad (vs : List PyVal)
    (hsized : ∀ v ∈ vs, (pyLen v).isSome = true)
    (hbad : ∃ v ∈ vs, pyLen v ≠ some 3) :
    checkFileValues vs = some (QueryError.malformedFileEntry threeTupleMsg) := by
  induction vs with
  | nil => simp at hbad
  | cons v rest ih =>
    cases hl : pyLen v with
    | none =>
      have := hsized v (by simp)
      rw [hl] at this
      simp at this
    | some n =>
      by_cases h3 : n = 3
      · subst h3
        have hrest : ∃ w ∈ rest, pyLen w ≠ some 3 := by
          rcases hbad with ⟨w, hw, hne⟩
          rcases List.mem_cons.mp hw with rfl | hw'
          · exact absurd hl hne
          · exact ⟨w, hw', hne⟩
        simp only [checkFileValues, hl]
        simpa using ih (fun w hw => hsized w (by simp [hw])) hrest
      · simp [checkFileValues, hl, h3]

/-- Once the presence and key-set checks pass with all three arguments truthy,
`query` is decided by the file-value loop: its error if it raises one, the
multipart request otherwise. -/
theorem query_all_present (uri qs : String) (vars fm fs : Option PyDict)
    (hv : truthy vars = true) (hm : truthy fm = true) (hf : truthy fs = true)
    (hk : sameKeySet (dictKeys (fm.getD [])) (dictKeys (fs.getD [])) = true) :
    (∀ e, checkFileValues (dictValues (fs.getD [])) = some e →
      query uri qs vars fm fs = Except.error e) ∧
    (checkFileValues (dictValues (fs.getD [])) = Option.none →
      query uri qs vars fm fs = Except.ok (Request.multipartPost uri
        [("operations", dumps (PyVal.dict
            [("query", PyVal.str qs), ("variables", pyOfOptDict vars)])),
         ("map", dumps (pyOfOptDict fm))]
        (fs.getD []))) := by
  constructor
  · intro e hcv
    simp [query, hv, hm, hf, hk, hcv]
  · intro hcv
    simp [query, hv, hm, hf, hk, hcv]

/-! ## Claim theorems -/

/-- Claim C1, counterexample to the message clause: with `file_map` given, the
call missing only `files` and the call missing only `variables` raise the very
same `InvalidArguments` message, so the message does not identify which
companion argument is missing. -/
theorem query_companion_message_uniform :
    query "u" "q" Option.none (some [("a", PyVal.str "b")])
        (some [("a", PyVal.str "c")]) =
      Except.error (QueryError.invalidArguments fileMapArgsMsg) ∧
    query "u" "q" (some [("v", PyVal.str "w")]) (some [("a", PyVal.str "b")])
        Option.none =
      Except.error (QueryError.invalidArguments fileMapArgsMsg) :=
  ⟨rfl, rfl⟩

/-- Claim C1 (amended): when `file_map` is given but `variables` or `files` is
missing, `query` raises `InvalidArguments` with the fixed message naming
`file_map` and its required companions; when `files` is given but `file_map`
is missing, it raises `InvalidArguments` with the fixed message naming `files`
and its required companions (so every C1 violation raises `InvalidArguments`,
with a message naming the requiring argument and both companion arguments
rather than the specific missing one); in either case no request is sent. -/
theorem query_missing_companion_raises (uri qs : String)
    (vars fm fs : Option PyDict) :
    (truthy fm = true → (truthy vars = false ∨ truthy fs = false) →
      query uri qs vars fm fs =
        Except.error (QueryError.invalidArguments fileMapArgsMsg) ∧
      requestsSent uri qs vars fm fs = []) ∧
    (truthy fs = true → truthy fm = false →
      query uri qs vars fm fs =
        Except.error (QueryError.invalidArguments filesArgsMsg) ∧
      requestsSent uri qs vars fm fs = []) := by
  constructor
  · intro h1 h2
    have hq : query uri qs vars fm fs =
        Except.error (QueryError.invalidArguments fileMapArgsMsg) := by
      rcases h2 with h2 | h2 <;> simp [query, h1, h2]
    exact ⟨hq, by simp [requestsSent, hq]⟩
  · intro h1 h2
    have hq : query uri qs vars fm fs =
        Except.error (QueryError.invalidArguments filesArgsMsg) := by
      simp [query, h1, h2]
    exact ⟨hq, by simp [requestsSent, hq]⟩

/-- Instance of `query_missing_companion_raises` at concrete inputs: both a
`file_map`-without-`files` call and a `files`-without-`file_map` call. -/
theorem query_missing_companion_raises_instance :
    (query "u" "q" Option.none (some [("a", PyVal.str "b")]) Option.none =
        Except.error (QueryError.invalidArguments fileMapArgsMsg) ∧
      requestsSent "u" "q" Option.none (some [("a", PyVal.str "b")])
        Option.none = []) ∧
    (query "u" "q" Option.none Option.none (some [("a", PyVal.str "b")]) =
        Except.error (QueryError.invalidArguments filesArgsMsg) ∧
      requestsSent "u" "q" Option.none Option.none
        (some [("a", PyVal.str "b")]) = []) :=
  ⟨(query_missing_companion_raises "u" "q" Option.none
      (some [("a", PyVal.str "b")]) Option.none).1 (by decide)
      (Or.inl (by decide)),
   (query_missing_companion_raises "u" "q" Option.none Option.none
      (some [("a", PyVal.str "b")])).2 (by decide) (by decide)⟩

/-- Claim C2: with all three arguments present (truthy), differing key sets of
`file_map` and `files` raise `InconsistentFileMap` whose message contains
"same keys", and identical key sets never raise that error. -/
theorem query_keyset_consistency (uri qs : String) (vars fm fs : Option PyDict)
    (hv : truthy vars = true) (hm : truthy fm = true) (hf : truthy fs = true) :
    (sameKeySet (dictKeys (fm.getD [])) (dictKeys (fs.getD [])) = false →
      query uri qs vars fm fs =
        Except.error (QueryError.inconsistentFileMap sameKeysMsg) ∧
      strContains sameKeysMsg "same keys" = true) ∧
    (sameKeySet (dictKeys (fm.getD [])) (dictKeys (fs.getD [])) = true →
      ∀ m, query uri qs vars fm fs ≠
        Except.error (QueryError.inconsistentFileMap m)) := by
  constructor
  · intro hk
    exact ⟨by simp [query, hv, hm, hf, hk], by decide⟩
  · intro hk m h
    rcases hcv : checkFileValues (dictValues (fs.getD [])) with _ | e
    · rw [(query_all_present uri qs vars fm fs hv hm hf hk).2 hcv] at h
      exact Except.noConfusion h
    · rw [(query_all_present uri qs vars fm fs hv hm hf hk).1 e hcv] at h
      exact checkFileValues_ne_inconsistent (dictValues (fs.getD [])) m
        (by rw [hcv, Except.error.inj h])

/-- Instance of `query_keyset_consistency` at concrete inputs: disjoint key
sets raise the "same keys" error. -/
theorem query_keyset_consistency_instance :
    query "u" "q" (some [("v", PyVal.none)]) (some [("1", PyVal.str "x")])
        (some [("0", PyVal.tuple [PyVal.str "a", PyVal.str "b", PyVal.str "c"])]) =
      Except.error (QueryError.inconsistentFileMap sameKeysMsg) ∧
    strContains sameKeysMsg "same keys" = true :=
  (query_keyset_consistency "u" "q" (some [("v", PyVal.none)])
      (some [("1", PyVal.str "x")])
      (some [("0", PyVal.tuple [PyVal.str "a", PyVal.str "b", PyVal.str "c"])])
      (by decide) (by decide) (by decide)).1 (by decide)

/-- Claim C3: after the presence and key-set checks pass, if every `files`
value is sized then a value of length other than 3 raises
`MalformedFileEntry` whose message contains "3-tuple", and when every value
has length exactly 3 this check raises nothing. -/
theorem query_file_entry_arity (uri qs : String) (vars fm fs : Option PyDict)
    (hv : truthy vars = true) (hm : truthy fm = true) (hf : truthy fs = true)
    (hk : sameKeySet (dictKeys (fm.getD [])) (dictKeys (fs.getD [])) = true)
    (hsized : ∀ v ∈ dictValues (fs.getD []), (pyLen v).isSome = true) :
    ((∃ v ∈ dictValues (fs.getD []), pyLen v ≠ some 3) →
      query uri qs vars fm fs =
        Except.error (QueryError.malformedFileEntry threeTupleMsg) ∧
      strContains threeTupleMsg "3-tuple" = true) ∧
    ((∀ v ∈ dictValues (fs.getD []), pyLen v = some 3) →
      ∀ m, query uri qs vars fm fs ≠
        Except.error (QueryError.malformedFileEntry m)) := by
  constructor
  · intro hbad
    refine ⟨(query_all_present uri qs vars fm fs hv hm hf hk).1 _
      (checkFileValues_some_of_bad _ hsized hbad), by decide⟩
  · intro hall m h
    rw [(query_all_present uri qs vars fm fs hv hm hf hk).2
      (checkFileValues_none_of_all3 _ hall)] at h
    exact Except.noConfusion h

/-- Instance of `query_file_entry_arity` at concrete inputs: a 2-tuple file
value raises the "3-tuple" error. -/
theorem query_file_entry_arity_instance :
    query "u" "q" (some [("v", PyVal.none)]) (some [("0", PyVal.str "x")])
        (some [("0", PyVal.tuple [PyVal.str "a", PyVal.str "b"])]) =
      Except.error (QueryError.malformedFileEntry threeTupleMsg) ∧
    strContains threeTupleMsg "3-tuple" = true :=
  (query_file_entry_arity "u" "q" (some [("v", PyVal.none)])
      (some [("0", PyVal.str "x")])
      (some [("0", PyVal.tuple [PyVal.str "a", PyVal.str "b"])])
      (by decide) (by decide) (by decide) (by decide) (by decide)).1
    ⟨PyVal.tuple [PyVal.str "a", PyVal.str "b"], by simp [dictValues], by decide⟩

/-- Claim C4: whenever `files` is absent or empty and `query` succeeds, the
outgoing request is the single JSON POST to the bound URI whose payload maps
"query" to the query string, with the "variables" key present and equal to
the given variables exactly when `variables` is truthy and omitted
otherwise. -/
theorem query_json_payload (uri qs : String) (vars fm fs : Option PyDict)
    (hf : truthy fs = false) (r : Request)
    (h : query uri qs vars fm fs = Except.ok r) :
    r = Request.jsonPost uri
      ([("query", PyVal.str qs)] ++
       (if truthy vars then [("variables", PyVal.dict (vars.getD []))]
        else [])) := by
  rcases Bool.eq_false_or_eq_true (truthy fm) with hm | hm <;>
      simp [query, hm, hf] at h
  rw [← h]
  simp

/-- Instance of `query_json_payload` at concrete inputs: a plain query with
no variables produces the bare payload. -/
theorem query_json_payload_instance :
    Request.jsonPost "u" [("query", PyVal.str "q")] =
      Request.jsonPost "u"
        ([("query", PyVal.str "q")] ++
         (if truthy Option.none then
            [("variables", PyVal.dict (Option.none.getD []))] else [])) :=
  query_json_payload "u" "q" Option.none Option.none Option.none (by decide)
    (Request.jsonPost "u" [("query", PyVal.str "q")]) rfl

/-- Claim C5: whenever `files` is non-empty and `query` succeeds, the outgoing
request is the single multipart POST to the bound URI whose form data holds
exactly the two text fields "operations" (the JSON dump of the query string
and the variables, null placeholders included) and "map" (the JSON dump of
`file_map` verbatim), plus one file part per key of `files` carrying that
key's entry. -/
theorem query_multipart_payload (uri qs : String) (vars fm fs : Option PyDict)
    (hf : truthy fs = true) (r : Request)
    (h : query uri qs vars fm fs = Except.ok r) :
    r = Request.multipartPost uri
      [("operations", dumps (PyVal.dict
          [("query", PyVal.str qs), ("variables", pyOfOptDict vars)])),
       ("map", dumps (pyOfOptDict fm))]
      (fs.getD []) := by
  unfold query at h
  split at h
  · exact Except.noConfusion h
  · split at h
    · exact Except.noConfusion h
    · split at h
      · exact Except.noConfusion h
      · split at h
        · exact Except.noConfusion h
        · rw [hf] at h
          simp only [Bool.not_true, Bool.false_eq_true, if_false, ite_false] at h
          exact (Except.ok.inj h).symm

/-- Instance of `query_multipart_payload` at concrete inputs: a one-file
upload produces the operations/map form data and the file part. -/
theorem query_multipart_payload_instance :
    Request.multipartPost "u"
        [("operations", dumps (PyVal.dict
            [("query", PyVal.str "q"),
             ("variables", pyOfOptDict (some [("v", PyVal.none)]))])),
         ("map", dumps (pyOfOptDict (some [("0", PyVal.list [PyVal.str "variables.v"])])))]
        [("0", PyVal.tuple [PyVal.str "a.txt", PyVal.str "hi", PyVal.str "text/plain"])] =
      Request.multipartPost "u"
        [("operations", dumps (PyVal.dict
            [("query", PyVal.str "q"),
             ("variables", pyOfOptDict (some [("v", PyVal.none)]))])),
         ("map", dumps (pyOfOptDict (some [("0", PyVal.list [PyVal.str "variables.v"])])))]
        ((some [("0", PyVal.tuple [PyVal.str "a.txt", PyVal.str "hi", PyVal.str "text/plain"])]).getD []) :=
  query_multipart_payload "u" "q" (some [("v", PyVal.none)])
    (some [("0", PyVal.list [PyVal.str "variables.v"])])
    (some [("0", PyVal.tuple [PyVal.str "a.txt", PyVal.str "hi", PyVal.str "text/plain"])])
    (by decide) _ rfl

/-- Claim C6: whenever `query` raises a validation error, no request goes out:
the list of requests sent by that call is empty. -/
theorem query_error_sends_nothing (uri qs : String) (vars fm fs : Option PyDict)
    (e : QueryError) (h : query uri qs vars fm fs = Except.error e) :
    requestsSent uri qs vars fm fs = [] := by
  simp [requestsSent, h]

/-- Instance of `query_error_sends_nothing` at a concrete failing call. -/
theorem query_error_sends_nothing_instance :
    requestsSent "u" "q" Option.none (some [("a", PyVal.str "b")]) Option.none = [] :=
  query_error_sends_nothing "u" "q" Option.none (some [("a", PyVal.str "b")])
    Option.none (QueryError.invalidArguments fileMapArgsMsg) rfl

/-- Claim C9: presence in the validation means truthiness. When `file_map` and
`files` are each absent or empty, no validation error is raised and the JSON
branch is taken, whatever `variables` is; with non-empty `files` and
`file_map`, a supplied-but-empty `variables` still raises `InvalidArguments`;
and with non-empty `files`, a supplied-but-empty `file_map` still raises
`InvalidArguments`. -/
theorem query_presence_is_truthiness (uri qs : String) :
    (∀ (vars fm fs : Option PyDict), truthy fm = false → truthy fs = false →
      query uri qs vars fm fs = Except.ok (Request.jsonPost uri
        ([("query", PyVal.str qs)] ++
         (if truthy vars then [("variables", PyVal.dict (vars.getD []))]
          else [])))) ∧
    (∀ (fm fs : PyDict), fm ≠ [] → fs ≠ [] →
      query uri qs (some []) (some fm) (some fs) =
        Except.error (QueryError.invalidArguments fileMapArgsMsg)) ∧
    (∀ (vars fs : PyDict), fs ≠ [] →
      query uri qs (some vars) (some []) (some fs) =
        Except.error (QueryError.invalidArguments filesArgsMsg)) := by
  refine ⟨fun vars fm fs hm hf => ?_, fun fm fs hm hf => ?_, fun vars fs hf => ?_⟩
  · simp [query, hm, hf]
  · simp [query, truthy_some_of_ne_nil fm hm, truthy_some_of_ne_nil fs hf, truthy]
    exact fun h => absurd h hm
  · simp [query, truthy_some_of_ne_nil fs hf, truthy]
    exact fun h => absurd h hf

/-- Instance of `query_presence_is_truthiness` at concrete inputs: empty
mappings behave as absent on both sides of the distinction. -/
theorem query_presence_is_truthiness_instance :
    query "u" "q" (some []) (some []) (some []) =
      Except.ok (Request.jsonPost "u"
        ([("query", PyVal.str "q")] ++
         (if truthy (some []) then
            [("variables", PyVal.dict ((some ([] : PyDict)).getD []))] else []))) ∧
    query "u" "q" (some []) (some [("0", PyVal.str "p")])
        (some [("0", PyVal.str "abc")]) =
      Except.error (QueryError.invalidArguments fileMapArgsMsg) ∧
    query "u" "q" (some [("v", PyVal.none)]) (some [])
        (some [("0", PyVal.str "abc")]) =
      Except.error (QueryError.invalidArguments filesArgsMsg) :=
  ⟨(query_presence_is_truthiness "u" "q").1 (some []) (some []) (some [])
      (by decide) (by decide),
   (query_presence_is_truthiness "u" "q").2.1 [("0", PyVal.str "p")]
      [("0", PyVal.str "abc")] (by simp) (by simp),
   (query_presence_is_truthiness "u" "q").2.2 [("v", PyVal.none)]
      [("0", PyVal.str "abc")] (by simp)⟩

/-- Claim C10: `file_map` values are never shape-checked — an arbitrary value
`m`, a plain string included, is dumped verbatim into the "map" field — and
the file-entry check accepts any value of length 3, such as the 3-character
string "abc". -/
theorem query_map_values_unvalidated (uri qs vname : String) (m : PyVal) :
    query uri qs (some [(vname, PyVal.none)]) (some [("0", m)])
        (some [("0", PyVal.str "abc")]) =
      Except.ok (Request.multipartPost uri
        [("operations", dumps (PyVal.dict
            [("query", PyVal.str qs),
             ("variables", PyVal.dict [(vname, PyVal.none)])])),
         ("map", dumps (PyVal.dict [("0", m)]))]
        [("0", PyVal.str "abc")]) := rfl

/-- Claim C7: for every HTTP verb the underlying client possesses, attribute
access on the session returns a callable that, applied to any positional and
keyword arguments, performs `client.<verb>(boundURI, *args, **kwargs)` — the
bound URI is always supplied as the request target. -/
theorem getattr_verb_injects_uri (uri : String) (c : HttpClient) (item : String)
    (hverb : HTTP_VERBS.contains item = true) (hattr : c.hasattr item = true) :
    ∃ f, getattr uri c item = GetattrResult.verbCallable f ∧
      ∀ args kwargs, f args kwargs = ClientCall.mk item uri args kwargs := by
  refine ⟨fun args kwargs => ⟨item, uri, args, kwargs⟩, ?_, fun args kwargs => rfl⟩
  simp [getattr, hattr]
  simpa using hverb

/-- Instance of `getattr_verb_injects_uri`: `get` on a client that has it
yields the URI-injecting callable. -/
theorem getattr_verb_injects_uri_instance :
    ∃ f, getattr "u" ⟨[("get", PyVal.none)]⟩ "get" =
        GetattrResult.verbCallable f ∧
      ∀ args kwargs, f args kwargs = ClientCall.mk "get" "u" args kwargs :=
  getattr_verb_injects_uri "u" ⟨[("get", PyVal.none)]⟩ "get"
    (by decide) (by decide)

/-- Claim C8: an attribute name the underlying client also lacks fails with
the `AttributeError` message naming the missing attribute, while a non-verb
name the client possesses is returned unchanged. -/
theorem getattr_unknown_or_delegate (uri : String) (c : HttpClient)
    (item : String) :
    (c.hasattr item = false →
      getattr uri c item = GetattrResult.err
        ("The Session class has no attribute \x27" ++ item ++ "\x27") ∧
      strContains ("The Session class has no attribute \x27" ++ item ++ "\x27")
        item = true) ∧
    (∀ v, c.attrs.lookup item = some v → HTTP_VERBS.contains item = false →
      getattr uri c item = GetattrResult.attr v) := by
  constructor
  · intro hmiss
    refine ⟨by simp [getattr, hmiss], ?_⟩
    have := strContains_of_append "The Session class has no attribute \x27"
      item "\x27"
    simpa [String.append_assoc] using this
  · intro v hv hverb
    have hattr : c.hasattr item = true := by
      simp [HttpClient.hasattr, hv]
    simp [getattr, hattr, HttpClient.attrVal, hv]
    simpa using hverb

/-- Instance of `getattr_unknown_or_delegate`: a missing name errs with the
naming message, and a present non-verb name is passed through. -/
theorem getattr_unknown_or_delegate_instance :
    (getattr "u" ⟨[("cookies", PyVal.str "jar")]⟩ "frobnicate" =
        GetattrResult.err
          ("The Session class has no attribute \x27" ++ "frobnicate" ++ "\x27") ∧
      strContains
        ("The Session class has no attribute \x27" ++ "frobnicate" ++ "\x27")
        "frobnicate" = true) ∧
    getattr "u" ⟨[("cookies", PyVal.str "jar")]⟩ "cookies" =
      GetattrResult.attr (PyVal.str "jar") :=
  ⟨(getattr_unknown_or_delegate "u" ⟨[("cookies", PyVal.str "jar")]⟩
      "frobnicate").1 (by decide),
   (getattr_unknown_or_delegate "u" ⟨[("cookies", PyVal.str "jar")]⟩
      "cookies").2 (PyVal.str "jar") rfl (by decide)⟩

end GraphQLRequests
